import Mathlib

/-
Verification of the decision/learning core in
src/bio-dashboard/src/lib/omni-brain/prescription-rl.py.

Python floats are modelled as real numbers; fallible code paths
(Python exceptions) are modelled with Option.  Randomness
(random.choice, np.random.choice draws) is modelled by passing the
drawn value as an explicit argument, so theorems quantify over it.
-/

namespace Mps

noncomputable section

/-- RLConfig (source lines 32-69).  Only the fields read by the embedded
operations are kept; the network-shape fields (signal_dim, hidden_dim, ...)
are consumed solely by the black-box neural modules, which the spec treats
as external collaborators. -/
structure RLConfig where
  num_nutrients : ℕ
  num_exercises : ℕ
  num_sleep_patterns : ℕ
  num_lifestyle : ℕ
  gamma : ℝ
  tau : ℝ
  signal_improvement_weight : ℝ
  subjective_condition_weight : ℝ
  adherence_bonus_weight : ℝ

/-- The default field values of RLConfig (50, 20, 10, 30, gamma 0.99,
tau 0.005, weights 0.6 / 0.3 / 0.1). -/
def defaultConfig : RLConfig :=
  ⟨50, 20, 10, 30, 0.99, 0.005, 0.6, 0.3, 0.1⟩

/-- ActionType enum (source lines 76-80), in declaration order. -/
inductive ActionType where
  | NUTRIENT
  | EXERCISE
  | SLEEP
  | LIFESTYLE
deriving DecidableEq

/-- ActionType.value strings. -/
def ActionType.value : ActionType → String
  | .NUTRIENT => "nutrient"
  | .EXERCISE => "exercise"
  | .SLEEP => "sleep"
  | .LIFESTYLE => "lifestyle"

/-- The Python expression list(ActionType) as a positional lookup. -/
def actionTypeAt (i : ℕ) : ActionType :=
  [ActionType.NUTRIENT, ActionType.EXERCISE,
   ActionType.SLEEP, ActionType.LIFESTYLE].getD i ActionType.NUTRIENT

/-- Action dataclass (source lines 83-98). -/
structure Action where
  action_type : ActionType
  action_id : ℤ
  name : String
  dosage : Option String
  frequency : Option String
  duration : Option String
  timing : Option String
  confidence : ℝ
  reasoning : String

/-- NUTRIENT_CATALOG (source lines 102-114). -/
def NUTRIENT_CATALOG : List (ℤ × String × String × String × String) :=
  [(0, ("Magnesium Glycinate", "300mg", "daily", "before_bed")),
   (1, ("Zinc Chelate", "15mg", "daily", "with_meal")),
   (2, ("Omega-3 EPA/DHA", "1000mg", "daily", "with_meal")),
   (3, ("Vitamin D3", "2000IU", "daily", "morning")),
   (4, ("Vitamin B Complex", "1 tablet", "daily", "morning")),
   (5, ("Coenzyme Q10", "100mg", "daily", "with_meal")),
   (6, ("Probiotics", "10B CFU", "daily", "empty_stomach")),
   (7, ("Iron Bisglycinate", "25mg", "daily", "empty_stomach")),
   (8, ("Curcumin", "500mg", "twice_daily", "with_meal")),
   (9, ("Ashwagandha", "300mg", "twice_daily", "any_time"))]

/-- EXERCISE_CATALOG (source lines 116-126). -/
def EXERCISE_CATALOG : List (ℤ × String × String × String) :=
  [(0, ("Yoga", "30min", "daily")),
   (1, ("HIIT", "20min", "3x_week")),
   (2, ("Walking", "45min", "daily")),
   (3, ("Swimming", "30min", "3x_week")),
   (4, ("Strength Training", "45min", "3x_week")),
   (5, ("Cycling", "30min", "daily")),
   (6, ("Stretching", "15min", "daily")),
   (7, ("Meditation", "20min", "daily"))]

/-- The reasoning templates of PrescriptionAgent._generate_reasoning
(source lines 587-605); dict.get falls back to the generic template for
SLEEP and LIFESTYLE. -/
def reasonings : ActionType → List String
  | .NUTRIENT =>
      ["Based on your unique signal pattern, your absorption of this nutrient is optimal.",
       "Your recent biomarkers suggest a deficiency that this can address.",
       "Users with similar patterns saw significant improvement with this recommendation."]
  | .EXERCISE =>
      ["Your Lactate Recovery Curve suggests you respond better to this exercise type.",
       "This activity level matches your current energy state from the signals.",
       "Pattern matching shows this exercise type improves your specific markers."]
  | _ => ["Based on your bio-signal analysis."]

/-- Total action space size (sum of the four category sizes),
as in Actor / QNetwork / the boundaries construction. -/
def totalActions (cfg : RLConfig) : ℤ :=
  (cfg.num_nutrients : ℤ) + cfg.num_exercises + cfg.num_sleep_patterns + cfg.num_lifestyle

/-- self.action_boundaries (source lines 517-524): four half-open ranges
computed by cumulative sum in the fixed category order. -/
def boundaries (cfg : RLConfig) : List (ℤ × ℤ) :=
  [((0 : ℤ), (cfg.num_nutrients : ℤ)),
   ((cfg.num_nutrients : ℤ), (cfg.num_nutrients : ℤ) + cfg.num_exercises),
   ((cfg.num_nutrients : ℤ) + cfg.num_exercises,
    (cfg.num_nutrients : ℤ) + cfg.num_exercises + cfg.num_sleep_patterns),
   ((cfg.num_nutrients : ℤ) + cfg.num_exercises + cfg.num_sleep_patterns,
    (cfg.num_nutrients : ℤ) + cfg.num_exercises + cfg.num_sleep_patterns + cfg.num_lifestyle)]

/-- The range-location loop of _idx_to_action (source lines 551-555):
returns the position of the first range containing idx together with the
start of that range, and none when no range contains idx (in Python the
loop then falls through and the function crashes on the unbound local). -/
def findRange (idx : ℤ) : List (ℤ × ℤ) → Option (ℕ × ℤ)
  | [] => none
  | (s, e) :: rest =>
      if s ≤ idx ∧ idx < e then some (0, s)
      else (findRange idx rest).map (fun p => (p.1 + 1, p.2))

/-- torch.sigmoid, used for the confidence of a constructed Action. -/
def sigmoid (x : ℝ) : ℝ := 1 / (1 + Real.exp (-x))

/-- The catalog lookup of _idx_to_action (source lines 557-571): the
name / dosage / frequency / timing strings for a category and local id,
with the synthesized generic fallbacks. -/
def actionDetails (ty : ActionType) (localId : ℤ) :
    String × Option String × Option String × Option String :=
  match ty with
  | .NUTRIENT =>
      match NUTRIENT_CATALOG.lookup localId with
      | some (n, d, f, t) => (n, some d, some f, some t)
      | none => ("Nutrient_" ++ toString localId, some ("standard"), some ("daily"), some ("any"))
  | .EXERCISE =>
      match EXERCISE_CATALOG.lookup localId with
      | some (n, dur, f) => (n, some dur, some f, none)
      | none => ("Exercise_" ++ toString localId, some ("30min"), some ("daily"), none)
  | ty => (ty.value ++ "_" ++ toString localId, none, none, none)

/-- PrescriptionAgent._idx_to_action (source lines 547-585).  pick models
random.choice over the reasoning templates.  Returns none exactly where the
Python function dies on the unbound action_type local, i.e. when no
boundary range contains idx. -/
def idxToAction (cfg : RLConfig) (idx : ℤ) (confidence : ℝ)
    (pick : List String → String) : Option Action :=
  (findRange idx (boundaries cfg)).map (fun p =>
    let ty := actionTypeAt p.1
    let localId := idx - p.2
    let det := actionDetails ty localId
    { action_type := ty
      action_id := localId
      name := det.1
      dosage := det.2.1
      frequency := det.2.2.1
      duration := none
      timing := det.2.2.2
      confidence := sigmoid confidence
      reasoning := pick (reasonings ty) })

/-- FeedbackDigest._action_to_idx (source lines 739-751): walks the
ActionType enumeration accumulating the category sizes as offset and
returns offset + action_id at the matching category (the loop unrolled
over the four constructors). -/
def actionToIdx (cfg : RLConfig) (a : Action) : ℤ :=
  match a.action_type with
  | .NUTRIENT => 0 + a.action_id
  | .EXERCISE => (cfg.num_nutrients : ℤ) + a.action_id
  | .SLEEP => (cfg.num_nutrients : ℤ) + cfg.num_exercises + a.action_id
  | .LIFESTYLE =>
      (cfg.num_nutrients : ℤ) + cfg.num_exercises + cfg.num_sleep_patterns + a.action_id

/-- State dataclass (source lines 133-156).  Tensors are modelled as real
vectors (lists); biomarkers as an association list String to value. -/
structure State where
  current_signal : List ℝ
  signal_history : List (List ℝ)
  user_profile : List ℝ
  health_score : ℝ
  biomarkers : List (String × ℝ)
  action_history : List (Action × ℝ)
  time_of_day : ℤ
  day_of_week : ℤ
  season : ℤ

/-- Transition dataclass (source lines 159-166). -/
structure Transition where
  state : State
  action : ℤ
  reward : ℝ
  next_state : State
  done : Bool

/-- An all-empty State, used as concrete test input. -/
def zeroState : State := ⟨[], [], [], 0, [], [], 0, 0, 0⟩

instance : Inhabited State := ⟨zeroState⟩

/-- A concrete Action used as test input. -/
def zeroAction : Action :=
  ⟨ActionType.NUTRIENT, 0, "Magnesium Glycinate", none, none, none, none, 0, ""⟩

instance : Inhabited Transition := ⟨⟨zeroState, 0, 0, zeroState, false⟩⟩

/-- The result dictionary of RewardCalculator.compute. -/
structure RewardOutput where
  signal_improvement : ℝ
  subjective_improvement : ℝ
  adherence_bonus : ℝ
  total : ℝ

/-- RewardCalculator._compute_signal_improvement (source lines 228-236):
tanh of the health-score delta divided by 10. -/
def computeSignalImprovement (prev curr : State) : ℝ :=
  Real.tanh ((curr.health_score - prev.health_score) / 10)

/-- RewardCalculator._compute_subjective_improvement (source lines
238-247): tanh of the subjective_wellbeing biomarker delta divided by 20,
with default 50 when the key is missing. -/
def computeSubjectiveImprovement (prev curr : State) : ℝ :=
  let prevScore := (prev.biomarkers.lookup ("subjective_wellbeing")).getD 50
  let currScore := (curr.biomarkers.lookup ("subjective_wellbeing")).getD 50
  Real.tanh ((currScore - prevScore) / 20)

/-- RewardCalculator.compute (source lines 185-226).  Note: the source
performs no validation of the adherence argument. -/
def compute (cfg : RLConfig) (prev curr : State) (action : Action)
    (adherence : ℝ) : RewardOutput :=
  let signal_improvement := computeSignalImprovement prev curr
  let subjective_improvement := computeSubjectiveImprovement prev curr
  let adherence_bonus := adherence * 0.2
  let total :=
    cfg.signal_improvement_weight * signal_improvement +
    cfg.subjective_condition_weight * subjective_improvement +
    cfg.adherence_bonus_weight * adherence_bonus
  ⟨signal_improvement, subjective_improvement, adherence_bonus, total⟩

/-- PrescriptionAgent._soft_update (source lines 660-665): every target
parameter becomes tau * online + (1 - tau) * target.  Parameter tensors
are flattened to one list of reals. -/
def softUpdate (cfg : RLConfig) (targetParams onlineParams : List ℝ) : List ℝ :=
  List.zipWith (fun t p => cfg.tau * p + (1 - cfg.tau) * t) targetParams onlineParams

/-- L1 distance between two parameter vectors. -/
def distL1 (xs ys : List ℝ) : ℝ :=
  (List.zipWith (fun a b => |a - b|) xs ys).sum

/-- torch argmax over a value vector: index of the first maximal entry. -/
def argmaxIdx : List ℝ → ℕ
  | [] => 0
  | [_] => 0
  | x :: y :: ys =>
      let j := argmaxIdx (y :: ys)
      if (y :: ys).getD j 0 ≤ x then 0 else j + 1

/-- The per-sample target expression of train_step line 637:
reward + gamma * next_q * (1 - done). -/
def tdTarget (gamma r q : ℝ) (d : Bool) : ℝ :=
  r + gamma * q * (1 - if d then (1 : ℝ) else 0)

/-- The batched target computation of PrescriptionAgent.train_step
(source lines 631-637), with the black-box state encoder and the online
and target value estimators passed as functions: per-row argmax of the
online network over the next-state encodings, gather from the target
network at those actions, then reward + gamma * next_q * (1 - done). -/
def trainStepTargets {α : Type} (gamma : ℝ) (encode : State → α)
    (qOnline qTarget : α → List ℝ) (batch : List Transition) : List ℝ :=
  let rewards := batch.map (fun t => t.reward)
  let dones := batch.map (fun t => t.done)
  let nextEncodings := batch.map (fun t => encode t.next_state)
  let nextActions := nextEncodings.map (fun e => argmaxIdx (qOnline e))
  let nextQ := List.zipWith (fun e a => (qTarget e).getD a 0) nextEncodings nextActions
  List.zipWith (fun rd q => tdTarget gamma rd.1 q rd.2) (rewards.zip dones) nextQ

/-- The Double-Q rule as the spec words it, per transition: the next
action is the argmax of the ONLINE values at the next state, and the
target is reward + gamma * (TARGET value at the next state for that
action) * (1 - done). -/
def doubleQTargetSpec {α : Type} (gamma : ℝ) (encode : State → α)
    (qOnline qTarget : α → List ℝ) (t : Transition) : ℝ :=
  let e := encode t.next_state
  let best := argmaxIdx (qOnline e)
  t.reward + gamma * (qTarget e).getD best 0 * (1 - if t.done then (1 : ℝ) else 0)

/-- PrioritizedReplayMemory (source lines 440-474): parallel transition
and priority arrays with a cyclic write cursor. -/
structure PrioritizedReplayMemory where
  capacity : ℕ
  alpha : ℝ
  memory : List Transition
  priorities : List ℝ
  position : ℕ

/-- PrioritizedReplayMemory.push (source lines 450-457): append while
below capacity, otherwise overwrite at the cursor; the stored priority is
priority ^ alpha; the cursor advances cyclically. -/
def PrioritizedReplayMemory.push (m : PrioritizedReplayMemory)
    (t : Transition) (priority : ℝ) : PrioritizedReplayMemory :=
  if m.memory.length < m.capacity then
    { m with
      memory := m.memory ++ [t]
      priorities := m.priorities ++ [priority ^ m.alpha]
      position := (m.position + 1) % m.capacity }
  else
    { m with
      memory := m.memory.set m.position t
      priorities := m.priorities.set m.position (priority ^ m.alpha)
      position := (m.position + 1) % m.capacity }

/-- np.max over the importance weights (all of them nonnegative here). -/
def listMax (l : List ℝ) : ℝ := l.foldr max 0

/-- PrioritizedReplayMemory.sample (source lines 459-470).  The indices
drawn by np.random.choice are passed in as idxs (any draw the distribution
can produce).  When the priorities sum to zero the normalized probability
vector is NaN and np.random.choice raises, modelled by none; otherwise the
result is (samples, indices, weights) with
weights = (N * p_i) ^ (-beta) divided by their maximum. -/
def PrioritizedReplayMemory.sample (m : PrioritizedReplayMemory)
    (beta : ℝ) (idxs : List ℕ) :
    Option (List Transition × List ℕ × List ℝ) :=
  if m.priorities.sum = 0 then none
  else
    let probabilities := m.priorities.map (fun p => p / m.priorities.sum)
    let weights := idxs.map (fun i =>
      ((m.memory.length : ℝ) * probabilities.getD i 0) ^ (-beta))
    some (idxs.map (fun i => m.memory.getD i default), idxs,
      weights.map (fun w => w / listMax weights))

/-- FeedbackDigest state (source lines 691-702): the prioritized
store together with the global success record, a mapping from action
index to the ordered list of (signal fingerprint, reward) pairs. -/
structure FeedbackDigest where
  memory : PrioritizedReplayMemory
  global_successes : ℤ → List (List ℝ × ℝ)

/-- The Transition built inside FeedbackDigest.process_outcome (source
lines 719-727): reward from RewardCalculator.compute, action converted by
_action_to_idx, terminal flag hard-coded to False. -/
def outcomeTransition (cfg : RLConfig) (state : State) (action : Action)
    (next_state : State) (adherence : ℝ) : Transition :=
  ⟨state, actionToIdx cfg action,
   (compute cfg state next_state action adherence).total, next_state, false⟩

/-- FeedbackDigest.process_outcome (source lines 704-737): computes the
reward, pushes the transition with priority |reward| + 0.1, and appends
(signal, reward) under the action index to the global success record
exactly when reward > 0.5 (_add_global_success, source lines 753-757,
modelled as a pointwise function update). -/
def processOutcome (cfg : RLConfig) (fd : FeedbackDigest) (state : State)
    (action : Action) (next_state : State) (adherence : ℝ) :
    ℝ × FeedbackDigest :=
  let reward := (compute cfg state next_state action adherence).total
  let t := outcomeTransition cfg state action next_state adherence
  let mem := fd.memory.push t (|reward| + 0.1)
  if reward > 0.5 then
    ⟨reward,
     ⟨mem, fun k =>
        if k = t.action then fd.global_successes k ++ [(state.current_signal, reward)]
        else fd.global_successes k⟩⟩
  else ⟨reward, ⟨mem, fd.global_successes⟩⟩

/-- The Hypothesis dictionary produced by
HypothesisGenerator.analyze_correlations (source lines 834-843). -/
structure Hyp where
  id : String
  independent_variable : String
  dependent_variable : String
  correlation : ℝ
  sample_size : ℕ
  hypothesis_text : String
  proposed_action : String
  status : String

/-- np.corrcoef(x, y)[0, 1]: the Pearson correlation coefficient.  The
(n - 1) normalizations of the covariance matrix cancel in the quotient,
leaving centered dot product over the product of the centered norms.
numpy returns NaN when either series is constant (zero variance); in the
real-number model the quotient is then 0 by the division-by-zero
convention, which like NaN never passes a positive threshold test. -/
def pearson (xs ys : List ℝ) : ℝ :=
  let mx := xs.sum / xs.length
  let my := ys.sum / ys.length
  let dx := xs.map (fun x => x - mx)
  let dy := ys.map (fun y => y - my)
  (List.zipWith (fun a b => a * b) dx dy).sum /
    (Real.sqrt ((dx.map (fun a => a ^ 2)).sum) * Real.sqrt ((dy.map (fun a => a ^ 2)).sum))

/-- HypothesisGenerator._generate_action_proposal (source lines 852-863). -/
def generateActionProposal (externalVar : String) (correlation : ℝ) : String :=
  let direction := if correlation > 0 then "positively" else "negatively"
  if externalVar = "air_quality" then
    "Push \x27Air Quality Alert\x27 to users when levels " ++ direction ++ " affect signals."
  else if externalVar = "temperature" then
    "Adjust measurement calibration for temperature sensitivity (" ++ direction ++ " correlated)."
  else if externalVar = "humidity" then
    "Update EHD suction recommendations based on humidity (" ++ direction ++ " impact)."
  else if externalVar = "exercise_level" then
    "Personalize exercise recommendations based on signal response (" ++ direction ++ ")."
  else
    "Investigate " ++ externalVar ++ " for potential intervention."

/-- One hypothesis dictionary as built at source lines 834-843.  idx is
len(discovered) at insertion time.  Note the source builds the
hypothesis_text with an unguarded feature_names[feat_idx] lookup (an
IndexError when feat_idx is out of range, unlike the guarded
dependent_variable just above it); the lookup is modelled totally here
and the theorems below only use inputs with enough feature names. -/
def mkHypothesis (fmt : ℝ → String) (idx : ℕ) (extName : String)
    (featureNames : List String) (j : ℕ) (corr : ℝ) (n : ℕ) : Hyp :=
  ⟨"hyp_" ++ toString idx, extName,
   featureNames.getD j ("feature_" ++ toString j), corr, n,
   "\x27" ++ extName ++ "\x27 correlates with \x27" ++
     featureNames.getD j ("") ++ "\x27 (r=" ++ fmt corr ++ ")",
   generateActionProposal extName corr, "proposed"⟩

/-- Stable insertion into a list kept in descending order of absolute
correlation. -/
def insertByCorrDesc (h : Hyp) : List Hyp → List Hyp
  | [] => [h]
  | x :: xs =>
      if |x.correlation| ≤ |h.correlation| then h :: x :: xs
      else x :: insertByCorrDesc h xs

/-- list.sort(key=abs correlation, reverse=True): a stable sort into
descending order of absolute correlation. -/
def sortByCorrDesc : List Hyp → List Hyp
  | [] => []
  | h :: t => insertByCorrDesc h (sortByCorrDesc t)

/-- HypothesisGenerator.analyze_correlations (source lines 798-850).
fmt models the %.3f float formatting of the f-string.  An external series
whose length differs from the signal count is skipped by the continue;
each surviving (variable, feature) pair is kept when
|correlation| >= min_correlation — the stored min_sample_size is never
consulted — and the discovered list is returned sorted by descending
absolute correlation. -/
def analyzeCorrelations (minSampleSize : ℕ) (minCorrelation : ℝ)
    (fmt : ℝ → String) (signals : List (List ℝ))
    (externalData : List (String × List ℝ)) (featureNames : List String) :
    List Hyp :=
  let numFeatures := (signals.headD []).length
  let discovered := externalData.foldl (fun acc nv =>
    if nv.2.length = signals.length then
      (List.range numFeatures).foldl (fun acc2 j =>
        let featValues := signals.map (fun row => row.getD j 0)
        let correlation := pearson featValues nv.2
        if minCorrelation ≤ |correlation| then
          acc2 ++ [mkHypothesis fmt acc2.length nv.1 featureNames j correlation signals.length]
        else acc2) acc
    else acc) ([] : List Hyp)
  sortByCorrDesc discovered

/-- C1: for every valid global index i in [0, total) and any confidence c,
action_to_index (index_to_action i c) = i: the catalog conversion is a
round trip on valid indices (for every configuration and every choice of
reasoning template). -/
theorem c1_index_roundtrip (cfg : RLConfig) (idx : ℤ) (conf : ℝ)
    (pick : List String → String)
    (h0 : 0 ≤ idx) (h1 : idx < totalActions cfg) :
    (idxToAction cfg idx conf pick).map (actionToIdx cfg) = some idx := by
  have htot : idx < (cfg.num_nutrients : ℤ) + cfg.num_exercises +
      cfg.num_sleep_patterns + cfg.num_lifestyle := h1
  unfold idxToAction boundaries
  simp only [findRange, Option.map_map]
  by_cases ha : idx < (cfg.num_nutrients : ℤ)
  · rw [if_pos ⟨h0, ha⟩]
    simp [actionTypeAt, actionToIdx]
  · rw [if_neg (by omega)]
    by_cases hb : idx < (cfg.num_nutrients : ℤ) + cfg.num_exercises
    · rw [if_pos ⟨by omega, hb⟩]
      simp only [Option.map_some, Option.map_map]
      simp [actionTypeAt, actionToIdx]
    · rw [if_neg (by omega)]
      by_cases hc : idx < (cfg.num_nutrients : ℤ) + cfg.num_exercises + cfg.num_sleep_patterns
      · rw [if_pos ⟨by omega, hc⟩]
        simp only [Option.map_some, Option.map_map]
        simp [actionTypeAt, actionToIdx]
      · rw [if_neg (by omega), if_pos ⟨by omega, by omega⟩]
        simp only [Option.map_some, Option.map_map]
        simp [actionTypeAt, actionToIdx]

/-- Witness for C1 at the default configuration, index 55 (an exercise
index), confidence 0 and head-of-list template choice. -/
theorem c1_index_roundtrip_witness :
    0 ≤ (55 : ℤ) ∧ (55 : ℤ) < totalActions defaultConfig ∧
      (idxToAction defaultConfig 55 0 (fun l => l.headD (""))).map
        (actionToIdx defaultConfig) = some 55 :=
  ⟨by norm_num,
   by norm_num [totalActions, defaultConfig],
   c1_index_roundtrip defaultConfig 55 0 (fun l => l.headD (""))
     (by norm_num) (by norm_num [totalActions, defaultConfig])⟩

/-- C4: index_to_action succeeds on every index inside [0, total) and
fails exactly on the indices outside [0, total) (the single failure mode,
exposed in the spec as ActionIndexOutOfRange, is modelled by none); it
fails for no other input. -/
theorem c4_index_out_of_range (cfg : RLConfig) (idx : ℤ) (conf : ℝ)
    (pick : List String → String) :
    idxToAction cfg idx conf pick = none ↔
      (idx < 0 ∨ totalActions cfg ≤ idx) := by
  unfold idxToAction boundaries totalActions
  simp only [findRange, Option.map_eq_none']
  by_cases ha : idx < (cfg.num_nutrients : ℤ)
  · by_cases h0 : 0 ≤ idx
    · rw [if_pos ⟨h0, ha⟩]; simp; omega
    · rw [if_neg (by omega), if_neg (by omega), if_neg (by omega), if_neg (by omega)]
      simp; omega
  · rw [if_neg (by omega)]
    by_cases hb : idx < (cfg.num_nutrients : ℤ) + cfg.num_exercises
    · rw [if_pos ⟨by omega, hb⟩]; simp; omega
    · rw [if_neg (by omega)]
      by_cases hc : idx < (cfg.num_nutrients : ℤ) + cfg.num_exercises + cfg.num_sleep_patterns
      · rw [if_pos ⟨by omega, hc⟩]; simp; omega
      · rw [if_neg (by omega)]
        by_cases hd : idx <
            (cfg.num_nutrients : ℤ) + cfg.num_exercises + cfg.num_sleep_patterns + cfg.num_lifestyle
        · rw [if_pos ⟨by omega, hd⟩]; simp; omega
        · rw [if_neg (by omega)]; simp; omega

/-- C5 counterexample: at adherence = 2, which is outside [0,1],
RewardCalculator.compute does not fail: it returns an ordinary result
dictionary with adherence_bonus = 2 * 0.2 = 0.4, refuting the claim that
compute fails with InvalidAdherence on out-of-range adherence. -/
theorem c5_no_validation_counterexample :
    ¬ ((2 : ℝ) ≤ 1) ∧
      (compute defaultConfig zeroState zeroState zeroAction 2).adherence_bonus = 0.4 := by
  refine ⟨by norm_num, ?_⟩
  simp only [compute]
  norm_num

/-- C5 amended: compute performs no adherence validation and never fails;
for every adherence value, inside or outside [0,1], it returns
adherence_bonus = adherence * 0.2. -/
theorem c5_adherence_bonus (cfg : RLConfig) (prev curr : State)
    (action : Action) (adherence : ℝ) :
    (compute cfg prev curr action adherence).adherence_bonus = adherence * 0.2 := rfl

/-- C9: the reward returned by RewardCalculator.compute is independent of
the action argument: for fixed states and adherence, any two actions give
identical output dictionaries. -/
theorem c9_reward_action_independent (cfg : RLConfig) (prev curr : State)
    (a1 a2 : Action) (adherence : ℝ) :
    compute cfg prev curr a1 adherence = compute cfg prev curr a2 adherence := rfl

/-- C7 counterexample: when the target parameters already equal the online
parameters (both [1]), a soft-update step with the default tau = 0.005
leaves the distance at 0, so the distance is not strictly decreasing at
every step as the claim states. -/
theorem c7_strict_decrease_counterexample :
    ¬ (distL1 (softUpdate defaultConfig [1] [1]) [1] < distL1 [1] [1]) := by
  simp [distL1, softUpdate, defaultConfig]

/-- C7 amended: with the online parameters held constant, each soft-update
step with tau = 0.005 scales the L1 distance to the online parameters by
exactly (1 - 0.005); hence the distance never increases, and it strictly
decreases whenever it is positive (the claim fails only in the degenerate
case where target already equals online and the distance is 0). -/
theorem c7_soft_update_contracts (t o : List ℝ) :
    distL1 (softUpdate defaultConfig t o) o = (1 - 0.005) * distL1 t o ∧
      (0 < distL1 t o → distL1 (softUpdate defaultConfig t o) o < distL1 t o) := by
  have key : ∀ (t o : List ℝ),
      distL1 (softUpdate defaultConfig t o) o = (1 - 0.005) * distL1 t o := by
    intro t o
    induction t generalizing o with
    | nil => simp [distL1, softUpdate]
    | cons x xs ih =>
        cases o with
        | nil => simp [distL1, softUpdate]
        | cons y ys =>
            have hx : |defaultConfig.tau * y + (1 - defaultConfig.tau) * x - y| =
                (1 - 0.005) * |x - y| := by
              have h1 : defaultConfig.tau * y + (1 - defaultConfig.tau) * x - y =
                  (1 - 0.005) * (x - y) := by
                simp only [defaultConfig]
                ring
              rw [h1, abs_mul, abs_of_nonneg (by norm_num : (0:ℝ) ≤ 1 - 0.005)]
            have ih2 := ih ys
            simp only [distL1, softUpdate, List.zipWith_cons_cons, List.sum_cons] at ih2 ⊢
            rw [hx, ih2]
            ring
  refine ⟨key t o, fun hpos => ?_⟩
  rw [key t o]
  nlinarith [hpos]

/-- Witness for C7 at target [0], online [1]: the distance is 1 before the
step and 0.995 afterwards. -/
theorem c7_soft_update_contracts_witness :
    0 < distL1 [(0 : ℝ)] [1] ∧
      distL1 (softUpdate defaultConfig [(0 : ℝ)] [1]) [1] < distL1 [(0 : ℝ)] [1] :=
  ⟨by simp [distL1],
   (c7_soft_update_contracts [(0 : ℝ)] [1]).2 (by simp [distL1])⟩

/-- C2: for every sampled batch, configuration and pair of value
estimators, the training targets computed by train_step equal, transition
by transition, the Double-Q rule of the spec: argmax by the online
network, evaluation by the target network, discounted by gamma and gated
by (1 - done). -/
theorem c2_double_q_targets {α : Type} (gamma : ℝ) (encode : State → α)
    (qOnline qTarget : α → List ℝ) (batch : List Transition) :
    trainStepTargets gamma encode qOnline qTarget batch =
      batch.map (doubleQTargetSpec gamma encode qOnline qTarget) := by
  induction batch with
  | nil => rfl
  | cons t ts ih =>
      simp only [trainStepTargets, List.map_cons, List.zip_cons_cons,
        List.zipWith_cons_cons] at ih ⊢
      rw [ih]
      rfl

/-- Every member of a real list is at most its listMax. -/
theorem le_listMax {l : List ℝ} {x : ℝ} (hx : x ∈ l) : x ≤ listMax l := by
  induction l with
  | nil => cases hx
  | cons a as ih =>
      rcases List.mem_cons.mp hx with h | h
      · subst h; exact le_max_left _ _
      · exact le_trans (ih h) (le_max_right _ _)

/-- Dividing through by a positive constant commutes with listMax. -/
theorem listMax_map_div {l : List ℝ} {c : ℝ} (hc : 0 < c) :
    listMax (l.map (fun w => w / c)) = listMax l / c := by
  induction l with
  | nil => simp [listMax, hc.ne.symm]
  | cons a as ih =>
      simp only [listMax, List.map_cons, List.foldr_cons] at ih ⊢
      rw [ih, max_div_div_right hc.le]

/-- getD after mapping division by a constant. -/
theorem getD_map_div (l : List ℝ) (c : ℝ) (i : ℕ) :
    (l.map (fun p => p / c)).getD i 0 = l.getD i 0 / c := by
  induction l generalizing i with
  | nil => simp
  | cons a as ih =>
      cases i with
      | zero => simp
      | succ n => simpa using ih n

/-- C6 counterexample: with a single stored transition of priority 0 (the
degenerate all-zero-priorities case) sample fails — np.random.choice
receives an invalid probability vector — instead of the guarded behavior
the claim requires, in which all weights are treated as 1. -/
theorem c6_zero_priority_counterexample :
    PrioritizedReplayMemory.sample ⟨10, 0.6, [default], [0], 1⟩ 0.4 [0] = none := by
  simp [PrioritizedReplayMemory.sample]

/-- A nonempty list of positive reals, divided through by its maximum,
lands in (0, 1] with maximum exactly 1. -/
theorem normalized_weights_bounds {l : List ℝ}
    (hpos : ∀ w ∈ l, 0 < w) (hne : l ≠ []) :
    (∀ w ∈ l.map (fun w => w / listMax l), 0 < w ∧ w ≤ 1) ∧
      listMax (l.map (fun w => w / listMax l)) = 1 := by
  have hmaxpos : 0 < listMax l := by
    rcases List.exists_mem_of_ne_nil l hne with ⟨w, hw⟩
    exact lt_of_lt_of_le (hpos w hw) (le_listMax hw)
  constructor
  · intro w hw
    rcases List.mem_map.mp hw with ⟨v, hv, rfl⟩
    exact ⟨div_pos (hpos v hv) hmaxpos, (div_le_one hmaxpos).mpr (le_listMax hv)⟩
  · rw [listMax_map_div hmaxpos]
    exact div_self (ne_of_gt hmaxpos)

/-- C6 amended: sample is not guarded against all-zero priorities (it
fails there, see the counterexample); but whenever the stored priorities
have positive sum, the memory is nonempty and every drawn index carries a
positive priority, every returned importance weight lies in (0, 1] and
the maximum returned weight is exactly 1. -/
theorem c6_importance_weights (m : PrioritizedReplayMemory) (beta : ℝ)
    (idxs : List ℕ)
    (hsum : 0 < m.priorities.sum)
    (hmem : 0 < m.memory.length)
    (hne : idxs ≠ [])
    (hidx : ∀ i ∈ idxs, 0 < m.priorities.getD i 0) :
    ∃ samples ridx ws,
      m.sample beta idxs = some (samples, ridx, ws) ∧
        (∀ w ∈ ws, 0 < w ∧ w ≤ 1) ∧ listMax ws = 1 := by
  have hsum' : m.priorities.sum ≠ 0 := ne_of_gt hsum
  have hrawpos : ∀ w ∈ idxs.map (fun i =>
      ((m.memory.length : ℝ) *
        ((m.priorities.map (fun p => p / m.priorities.sum)).getD i 0)) ^ (-beta)),
      0 < w := by
    intro w hw
    rcases List.mem_map.mp hw with ⟨i, hi, rfl⟩
    have hp : 0 < (m.priorities.map (fun p => p / m.priorities.sum)).getD i 0 := by
      rw [getD_map_div]
      exact div_pos (hidx i hi) hsum
    exact Real.rpow_pos_of_pos (mul_pos (by exact_mod_cast hmem) hp) _
  have hrawne : idxs.map (fun i =>
      ((m.memory.length : ℝ) *
        ((m.priorities.map (fun p => p / m.priorities.sum)).getD i 0)) ^ (-beta)) ≠ [] := by
    simpa using hne
  have hb := normalized_weights_bounds hrawpos hrawne
  simp only [PrioritizedReplayMemory.sample, if_neg hsum']
  exact ⟨_, _, _, rfl, hb.1, hb.2⟩

/-- Witness for C6: two stored transitions with equal priority 1, drawing
indices 0 and 1. -/
theorem c6_importance_weights_witness :
    (0 : ℝ) < List.sum [1, 1] ∧ (0 : ℕ) < 2 ∧ ([0, 1] : List ℕ) ≠ [] ∧
      (∃ samples ridx ws,
        PrioritizedReplayMemory.sample ⟨10, 0.6, [default, default], [1, 1], 0⟩ 0.4 [0, 1] =
            some (samples, ridx, ws) ∧
          (∀ w ∈ ws, 0 < w ∧ w ≤ 1) ∧ listMax ws = 1) :=
  ⟨by norm_num, by norm_num, by simp,
   c6_importance_weights ⟨10, 0.6, [default, default], [1, 1], 0⟩ 0.4 [0, 1]
     (by norm_num) (by norm_num) (by simp)
     (by intro i hi; fin_cases hi <;> norm_num)⟩

/-- C8: process_outcome returns the computed reward, pushes the built
transition into the prioritized store with priority |reward| + 0.1, and
appends the entry (signal, reward) under the action index to the global
success record exactly when the reward exceeds the success threshold 0.5;
every key of the record keeps all of its previous entries (append-only),
so a reward of 0.9 is recorded and a reward of 0.3 is not. -/
theorem c8_process_outcome (cfg : RLConfig) (fd : FeedbackDigest)
    (state : State) (action : Action) (next_state : State) (adherence : ℝ) :
    (processOutcome cfg fd state action next_state adherence).1 =
        (compute cfg state next_state action adherence).total ∧
      (processOutcome cfg fd state action next_state adherence).2.memory =
        fd.memory.push (outcomeTransition cfg state action next_state adherence)
          (|(compute cfg state next_state action adherence).total| + 0.1) ∧
      ∀ k, (processOutcome cfg fd state action next_state adherence).2.global_successes k =
        fd.global_successes k ++
          (if k = actionToIdx cfg action ∧
              (compute cfg state next_state action adherence).total > 0.5 then
            [(state.current_signal, (compute cfg state next_state action adherence).total)]
          else []) := by
  unfold processOutcome
  by_cases hr : (compute cfg state next_state action adherence).total > 0.5
  · rw [if_pos hr]
    refine ⟨rfl, rfl, fun k => ?_⟩
    by_cases hk : k = actionToIdx cfg action
    · rw [if_pos ⟨hk, hr⟩]
      simp only [outcomeTransition]
      rw [if_pos hk]
    · rw [if_neg (fun h => hk h.1)]
      simp only [outcomeTransition]
      rw [if_neg hk]
      simp
  · rw [if_neg hr]
    refine ⟨rfl, rfl, fun k => ?_⟩
    rw [if_neg (fun h => hr h.2)]
    simp

/-- C10: the transition created and pushed by process_outcome always has
its terminal flag set to done = False, and consequently the (1 - done)
factor in the learning-step target is 1: the Double-Q target for such a
transition is reward + gamma * next_q with no terminal gating. -/
theorem c10_transitions_not_terminal (cfg : RLConfig) (fd : FeedbackDigest)
    (state : State) (action : Action) (next_state : State) (adherence : ℝ) :
    (outcomeTransition cfg state action next_state adherence).done = false ∧
      (processOutcome cfg fd state action next_state adherence).2.memory =
        fd.memory.push (outcomeTransition cfg state action next_state adherence)
          (|(compute cfg state next_state action adherence).total| + 0.1) ∧
      ∀ gamma q : ℝ,
        tdTarget gamma (outcomeTransition cfg state action next_state adherence).reward q
            (outcomeTransition cfg state action next_state adherence).done =
          (outcomeTransition cfg state action next_state adherence).reward + gamma * q := by
  refine ⟨rfl, ?_, fun gamma q => ?_⟩
  · unfold processOutcome
    by_cases hr : (compute cfg state next_state action adherence).total > 0.5
    · rw [if_pos hr]
    · rw [if_neg hr]
  · simp [tdTarget, outcomeTransition]

/-- C3 / the code at the failing input: with two samples of a single
signal feature perfectly correlated with the external series, a minimum
correlation of 0.5 and a configured minimum sample size of 100,
analyze_correlations emits one hypothesis with sample_size 2 < 100: the
configured minimum sample size is stored but never applied, contradicting
the sample-size conjunct of the claim (the length-mismatch skip and the
descending-|correlation| order are not at issue on this input). -/
theorem c3_min_sample_size_ignored :
    (analyzeCorrelations 100 0.5 (fun _ => ("")) [[(0 : ℝ)], [1]]
        [(("x"), [(0 : ℝ), 1])] [("f")]).map
      (fun h => (h.sample_size, h.correlation)) = [(2, (1 : ℝ))] ∧
      (2 : ℕ) < 100 := by
  have hp : pearson [(0 : ℝ), 1] [(0 : ℝ), 1] = 1 := by
    unfold pearson
    have hs : ((Real.sqrt 2)⁻¹ * (Real.sqrt 2)⁻¹ : ℝ) = 2⁻¹ := by
      rw [← mul_inv, Real.mul_self_sqrt (by norm_num : (0 : ℝ) ≤ 2)]
    norm_num
    rw [hs]
    norm_num
  refine ⟨?_, by norm_num⟩
  have hcond : (0.5 : ℝ) ≤ |pearson [(0 : ℝ), 1] [(0 : ℝ), 1]| := by
    rw [hp]; norm_num
  simp only [analyzeCorrelations, List.headD, List.length_cons, List.length_nil,
    List.range_succ, List.range_zero, List.nil_append, List.foldl_cons, List.foldl_nil,
    List.map_cons, List.map_nil, List.getD_cons_zero]
  norm_num [hcond, sortByCorrDesc, insertByCorrDesc, mkHypothesis, hp]

end

end Mps
